import Mathlib

/-!
Shallow embedding of the playwright-service browser-automation worker
(`apps/playwright-service-ts/api.ts`): the admission semaphore, the
network policy filter installed on every browsing context, the
navigation-and-capture pipeline (`scrapePage`), the screenshot capture
helper (`takeScreenshot`), the action execution engine
(`executeActions`) and the `/scrape` request handler.

The browser engine is treated as a capability surface (the spec treats
it the same way): every page-level operation a request performs is a
field of a `PageEnv` record that yields either a result or a fault,
mirroring how every awaited Playwright call either resolves or rejects.
All definitions below are translated from the TypeScript source; the
single exception (`getError`, whose source file is not part of the
provided sources) is marked in its doc comment.
-/

namespace Firecrawl

/-- Does the second character list start with the first one? -/
def seqStarts : List Char → List Char → Bool
  | [], _ => true
  | _ :: _, [] => false
  | a :: as, b :: bs => a == b && seqStarts as bs

/-- Does the second character list contain the first as a contiguous run? -/
def seqContains (pat : List Char) : List Char → Bool
  | [] => pat.isEmpty
  | c :: t => seqStarts pat (c :: t) || seqContains pat t

/-- JavaScript `String.prototype.includes`: substring containment. -/
def jsIncludes (s pat : String) : Bool :=
  seqContains pat.toList s.toList

/-- ASCII lower-casing of one character (the strings the service
lower-cases — header names, content types — are ASCII). -/
def lowerChar (c : Char) : Char :=
  if 'A' ≤ c ∧ c ≤ 'Z' then Char.ofNat (c.toNat + 32) else c

/-- JavaScript `String.prototype.toLowerCase` on ASCII strings. -/
def lowerStr (s : String) : String :=
  String.mk (s.toList.map lowerChar)

/-- A rejected promise / thrown JavaScript error, carrying its message. -/
structure Err where
  msg : String
deriving DecidableEq

/-- Did this fallible operation succeed? -/
def exIsOk {ε α : Type} : Except ε α → Bool
  | .ok _ => true
  | .error _ => false

deriving instance DecidableEq for Except

/-! ## The admission semaphore (`class Semaphore`, api.ts lines 28-65)

`acquire()` decrements `permits` and resolves immediately when a permit
is free, otherwise pushes the caller's `resolve` at the back of `queue`.
`release()` increments `permits` and, when the queue is non-empty,
shifts the front waiter, decrements `permits` again and resolves that
waiter.  Waiters are modelled by caller identifiers. -/

structure Sem where
  permits : Nat
  queue : List Nat
deriving DecidableEq

/-- `Semaphore.acquire`; the returned Bool is `true` when the caller was
admitted immediately and `false` when it was suspended on the queue. -/
def Sem.acquire (s : Sem) (c : Nat) : Sem × Bool :=
  if 0 < s.permits then
    ({ s with permits := s.permits - 1 }, true)
  else
    ({ s with queue := s.queue ++ [c] }, false)

/-- `Semaphore.release`; returns the woken waiter, if any. -/
def Sem.release (s : Sem) : Sem × Option Nat :=
  let p := s.permits + 1
  match s.queue with
  | [] => ({ permits := p, queue := [] }, none)
  | w :: ws => ({ permits := p - 1, queue := ws }, some w)

/-- Run a list of `acquire` calls in arrival order, collecting for every
caller whether it was admitted immediately. -/
def acquireList : Sem → List Nat → Sem × List Bool
  | s, [] => (s, [])
  | s, c :: cs =>
      let p := s.acquire c
      let q := acquireList p.1 cs
      (q.1, p.2 :: q.2)

/-! ## Base64 (Node `Buffer.prototype.toString("base64")`, RFC 4648) -/

def b64Alphabet : String :=
  "ABCDEFGHIJKLMNOPQRSTUVWXYZabcdefghijklmnopqrstuvwxyz0123456789+/"

def b64Char (n : Nat) : Char :=
  b64Alphabet.toList.getD n 'A'

def b64Value (c : Char) : Nat :=
  b64Alphabet.toList.indexOf c

/-- RFC 4648 base64 of a byte list (bytes are naturals below 256),
with `=` padding, as produced by Node `Buffer.toString("base64")`. -/
def base64EncodeChars : List Nat → List Char
  | [] => []
  | [a] => [b64Char (a / 4), b64Char (a % 4 * 16), '=', '=']
  | [a, b] => [b64Char (a / 4), b64Char (a % 4 * 16 + b / 16), b64Char (b % 16 * 4), '=']
  | a :: b :: c :: rest =>
      b64Char (a / 4) :: b64Char (a % 4 * 16 + b / 16) ::
      b64Char (b % 16 * 4 + c / 64) :: b64Char (c % 64) ::
      base64EncodeChars rest

def base64Encode (bytes : List Nat) : String :=
  String.mk (base64EncodeChars bytes)

/-- Base64 decoding, inverse of `base64EncodeChars` on well-formed input. -/
def base64DecodeChars : List Char → List Nat
  | c1 :: c2 :: c3 :: c4 :: rest =>
      let v1 := b64Value c1
      let v2 := b64Value c2
      if c3 = '=' then [v1 * 4 + v2 / 16]
      else
        let v3 := b64Value c3
        if c4 = '=' then [v1 * 4 + v2 / 16, v2 % 16 * 16 + v3 / 4]
        else
          (v1 * 4 + v2 / 16) :: (v2 % 16 * 16 + v3 / 4) ::
            (v3 % 4 * 64 + b64Value c4) :: base64DecodeChars rest
  | _ => []

def base64Decode (s : String) : List Nat :=
  base64DecodeChars s.toList

/-! ## Actions and their results (api.ts lines 84-125) -/

/-- `"up" | "down"` scroll direction. -/
inductive Dir where
  | up
  | down
deriving DecidableEq

/-- A JavaScript value returned by `page.evaluate`, with enough structure
to compute `typeof`.  JS numbers are modelled as rationals. -/
inductive JsValue where
  | undef
  | nullv
  | boolean (b : Bool)
  | number (q : Rat)
  | string (s : String)
  | object
deriving DecidableEq

/-- JavaScript `typeof`. -/
def jsTypeof : JsValue → String
  | .undef => "undefined"
  | .nullv => "object"
  | .boolean _ => "boolean"
  | .number _ => "number"
  | .string _ => "string"
  | .object => "object"

/-- The `Action` tagged union.  The request body arrives as unvalidated
JSON, so a runtime value whose `type` tag is outside the declared union
can reach the dispatch switch; `unknown` models such a value (it hits
the `default:` branch). -/
inductive Action where
  | wait (milliseconds : Option Nat) (selector : Option String)
  | click (selector : String) (all : Option Bool)
  | screenshot (fullPage : Option Bool)
  | write (text : String)
  | press (key : String)
  | scroll (direction : Option Dir) (selector : Option String)
  | scrape
  | executeJavascript (script : String)
  | pdf (landscape : Option Bool) (scale : Option Rat) (format : Option String)
  | unknown (tag : String)
deriving DecidableEq

structure ScrapeActionContent where
  url : String
  html : String
deriving DecidableEq

structure JavascriptReturnValue where
  type : String
  value : JsValue
deriving DecidableEq

structure ActionResults where
  screenshots : List String
  scrapes : List ScrapeActionContent
  javascriptReturns : List JavascriptReturnValue
  pdfs : List String
deriving DecidableEq

def emptyResults : ActionResults :=
  { screenshots := [], scrapes := [], javascriptReturns := [], pdfs := [] }

/-- Options handed to `page.pdf`.  The source casts `action.format` to
`PdfFormat` unchecked, so the format is carried as a plain string. -/
structure PdfOptions where
  landscape : Option Bool
  scale : Option Rat
  format : Option String
deriving DecidableEq

/-- Build the `pdfOptions` object of the `pdf` action case (api.ts lines
372-389): start from `{}`, set `landscape` and `scale` only when the
action provides them, and set `format` to the provided value or to
`"Letter"` when absent. -/
def buildPdfOptions (landscape : Option Bool) (scale : Option Rat)
    (format : Option String) : PdfOptions :=
  let opts : PdfOptions := { landscape := none, scale := none, format := none }
  let opts := match landscape with
    | some b => { opts with landscape := some b }
    | none => opts
  let opts := match scale with
    | some v => { opts with scale := some v }
    | none => opts
  let opts := match format with
    | some f => { opts with format := some f }
    | none => { opts with format := some "Letter" }
  opts

/-! ## The browser capability surface and the local filesystem -/

/-- A navigation response (`playwright.Response`): status code, headers
as delivered by `response.allHeaders()`, and the raw body decoded as
UTF-8 (`(await response.body()).toString("utf8")`). -/
structure Resp where
  status : Int
  headers : List (String × String)
  bodyUtf8 : String
deriving DecidableEq

/-- Outcome of `page.goto`: a response object, `null` (Playwright
returns `null` e.g. for `about:blank`-style navigations), or a rejected
promise.  Playwright documents that exceeding the navigation timeout
rejects the `goto` promise with a `TimeoutError`, so a navigation
timeout is the `thrown` outcome. -/
inductive GotoOutcome where
  | ok (r : Resp)
  | noResponse
  | thrown (e : Err)
deriving DecidableEq

/-- The `waitUntil` load-completion policy accepted by `scrapePage`. -/
inductive WaitUntil where
  | load
  | networkidle
deriving DecidableEq

/-- The page capability surface: one field per Playwright page operation
the service performs.  Each field yields either a result or a fault,
mirroring promise resolution/rejection.  `clickAll` stands for the
`locator(sel).all()` snapshot followed by clicking each element in the
snapshot; `isoNow` supplies the ISO timestamp of the n-th
`new Date().toISOString()` call. -/
structure PageEnv where
  goto : GotoOutcome
  waitForTimeout : Nat → Except Err Unit
  waitForSelector : String → Nat → Except Err Unit
  clickOne : String → Except Err Unit
  clickAll : String → Except Err Unit
  keyboardType : String → Except Err Unit
  keyboardPress : String → Except Err Unit
  scrollPage : Dir → Nat → Except Err Unit
  scrollElem : String → Dir → Nat → Except Err Unit
  content : Except Err String
  pageUrl : String
  evaluate : String → Except Err JsValue
  screenshotBytes : Bool → Except Err (List Nat)
  pdfBytes : PdfOptions → Except Err (List Nat)
  isoNow : Nat → String

/-- The worker's local filesystem, as far as the service touches it:
known directories, written files, and a tick counter feeding the
timestamp source. -/
structure FS where
  dirs : List String
  files : List (String × List Nat)
  ticks : Nat
deriving DecidableEq

/-- `path.resolve(__dirname, "../../screenshots")` (api.ts line 22). -/
def screenshotsDir : String := "../../screenshots"

/-- `toISOString().replace(/[:.]/g, "-")` (api.ts line 252). -/
def sanitizeTimestamp (ts : String) : String :=
  String.mk (ts.toList.map fun c => if c = ':' ∨ c = '.' then '-' else c)

def screenshotFilePath (ts : String) : String :=
  screenshotsDir ++ "/" ++ ("screenshot-" ++ sanitizeTimestamp ts ++ ".png")

/-- The filesystem part of `takeScreenshot` (api.ts lines 246-257):
create the screenshots directory when absent and write the PNG bytes to
a timestamped file. -/
def writeShotFile (env : PageEnv) (fs : FS) (shot : List Nat) : FS :=
  let fs1 := if fs.dirs.contains screenshotsDir then fs
    else { fs with dirs := fs.dirs ++ [screenshotsDir] }
  let filepath := screenshotFilePath (env.isoNow fs.ticks)
  { fs1 with files := fs1.files ++ [(filepath, shot)], ticks := fs1.ticks + 1 }

/-- `takeScreenshot` (api.ts lines 240-261): capture PNG bytes, save
them to a timestamped file in the screenshots directory, and return the
bytes base64-encoded. -/
def takeScreenshot (env : PageEnv) (fs : FS) (fullPage : Bool) :
    Except Err (FS × String) :=
  match env.screenshotBytes fullPage with
  | .error e => .error e
  | .ok shot => .ok (writeShotFile env fs shot, base64Encode shot)

/-! ## The action execution engine (`executeActions`, api.ts lines 264-410) -/

/-- The body of one iteration's `try` block: dispatch on the action's
variant tag, perform the page operations of that case, and on success
return the updated filesystem together with the append this action
performs on the accumulated results.  A fault anywhere inside the case
is the `error` outcome. -/
def runAction (env : PageEnv) (a : Action) (fs : FS) :
    Except Err (FS × (ActionResults → ActionResults)) :=
  match a with
  | .wait ms sel =>
      match ms, sel with
      | some m, _ =>
          match env.waitForTimeout m with
          | .error e => .error e
          | .ok _ => .ok (fs, id)
      | none, some s =>
          match env.waitForSelector s 30000 with
          | .error e => .error e
          | .ok _ => .ok (fs, id)
      | none, none => .ok (fs, id)
  | .click selector all =>
      if all.getD false then
        match env.clickAll selector with
        | .error e => .error e
        | .ok _ => .ok (fs, id)
      else
        match env.clickOne selector with
        | .error e => .error e
        | .ok _ => .ok (fs, id)
  | .screenshot fullPage =>
      match takeScreenshot env fs (fullPage.getD false) with
      | .error e => .error e
      | .ok (fs2, b64) =>
          .ok (fs2, fun r => { r with screenshots := r.screenshots ++ [b64] })
  | .write text =>
      match env.keyboardType text with
      | .error e => .error e
      | .ok _ => .ok (fs, id)
  | .press key =>
      match env.keyboardPress key with
      | .error e => .error e
      | .ok _ => .ok (fs, id)
  | .scroll direction sel =>
      match sel with
      | some s =>
          match env.scrollElem s (direction.getD .down) 500 with
          | .error e => .error e
          | .ok _ => .ok (fs, id)
      | none =>
          match env.scrollPage (direction.getD .down) 500 with
          | .error e => .error e
          | .ok _ => .ok (fs, id)
  | .scrape =>
      match env.content with
      | .error e => .error e
      | .ok html =>
          .ok (fs, fun r =>
            { r with scrapes := r.scrapes ++ [{ url := env.pageUrl, html := html }] })
  | .executeJavascript script =>
      match env.evaluate script with
      | .error e => .error e
      | .ok v =>
          .ok (fs, fun r =>
            { r with javascriptReturns :=
                r.javascriptReturns ++ [{ type := jsTypeof v, value := v }] })
  | .pdf landscape scale format =>
      match env.pdfBytes (buildPdfOptions landscape scale format) with
      | .error e => .error e
      | .ok buf =>
          .ok (fs, fun r => { r with pdfs := r.pdfs ++ [base64Encode buf] })
  | .unknown _ => .ok (fs, id)

/-- One loop iteration of `executeActions`: the per-action `catch` logs
the fault and continues with the next action, leaving the accumulated
state untouched. -/
def execStep (env : PageEnv) (s : FS × ActionResults) (a : Action) :
    FS × ActionResults :=
  match runAction env a s.1 with
  | .ok (fs2, f) => (fs2, f s.2)
  | .error _ => s

/-- `executeActions`: run the list strictly in order, accumulating
results, isolating each action's faults. -/
def executeActions (env : PageEnv) (fs : FS) (actions : List Action) :
    FS × ActionResults :=
  actions.foldl (execStep env) (fs, emptyResults)

/-- Does the environment fault on this action?  For each variant this is
exactly the fault condition of the corresponding `runAction` case. -/
def actionFaults (env : PageEnv) (a : Action) : Bool :=
  match a with
  | .wait ms sel =>
      match ms, sel with
      | some m, _ => !exIsOk (env.waitForTimeout m)
      | none, some s => !exIsOk (env.waitForSelector s 30000)
      | none, none => false
  | .click selector all =>
      if all.getD false then !exIsOk (env.clickAll selector)
      else !exIsOk (env.clickOne selector)
  | .screenshot fullPage => !exIsOk (env.screenshotBytes (fullPage.getD false))
  | .write text => !exIsOk (env.keyboardType text)
  | .press key => !exIsOk (env.keyboardPress key)
  | .scroll direction sel =>
      match sel with
      | some s => !exIsOk (env.scrollElem s (direction.getD .down) 500)
      | none => !exIsOk (env.scrollPage (direction.getD .down) 500)
  | .scrape => !exIsOk env.content
  | .executeJavascript script => !exIsOk (env.evaluate script)
  | .pdf landscape scale format =>
      !exIsOk (env.pdfBytes (buildPdfOptions landscape scale format))
  | .unknown _ => false

/-! ## URL parsing and the network policy filter (api.ts lines 68-82, 176-203) -/

structure UrlParts where
  scheme : String
  hostname : String
deriving DecidableEq

/-- Split a character list at the first occurrence of `"://"`,
returning the part before and the part after it. -/
def splitSchemeAux : List Char → List Char → Option (List Char × List Char)
  | acc, ':' :: '/' :: '/' :: rest => some (acc.reverse, rest)
  | acc, c :: rest => splitSchemeAux (c :: acc) rest
  | _, [] => none

/-- Model of the WHATWG URL constructor (`new URL(s)`) for the
hierarchical URLs this service handles: an all-alphabetic scheme,
`"://"`, then a nonempty, space-free host terminated by `/`, `:`, `?`
or `#`.  `none` models the constructor throwing `TypeError` on a
malformed string (e.g. one with no scheme at all). -/
def parseUrl (s : String) : Option UrlParts :=
  match splitSchemeAux [] s.toList with
  | none => none
  | some (schChars, restChars) =>
      let hostChars := restChars.takeWhile fun c =>
        !(c == '/' || c == ':' || c == '?' || c == '#')
      if !schChars.isEmpty && schChars.all Char.isAlpha &&
          !hostChars.isEmpty && hostChars.all (fun c => !(c == ' ')) then
        some { scheme := String.mk schChars, hostname := String.mk hostChars }
      else none

/-- `isValidUrl` (api.ts lines 196-203): `new URL` inside `try/catch`. -/
def isValidUrl (s : String) : Bool :=
  (parseUrl s).isSome

/-- The fixed deny-list `AD_SERVING_DOMAINS` (api.ts lines 68-82). -/
def adServingDomains : List String :=
  [ "doubleclick.net", "adservice.google.com", "googlesyndication.com",
    "googletagservices.com", "googletagmanager.com", "google-analytics.com",
    "adsystem.com", "adservice.com", "adnxs.com", "ads-twitter.com",
    "facebook.net", "fbcdn.net", "amazon-adsystem.com" ]

/-- Whether the route filter aborts (`route.abort()`) or lets the
request continue (`route.continue()`). -/
inductive RouteDecision where
  | abort
  | cont
deriving DecidableEq

/-- The per-request network policy filter installed by `createContext`
(api.ts lines 176-185).  It calls `new URL(request.url())` with no
`try/catch`, so a URL the constructor rejects makes the handler throw
(`error` outcome); otherwise it aborts when the hostname contains any
deny-list entry as a substring and continues otherwise. -/
def routeFilter (requestUrl : String) : Except Err RouteDecision :=
  match parseUrl requestUrl with
  | none => .error { msg := "Invalid URL" }
  | some u =>
      if adServingDomains.any (fun domain => jsIncludes u.hostname domain) then
        .ok .abort
      else
        .ok .cont

/-! ## The navigation and capture pipeline (`scrapePage`, api.ts lines 205-237) -/

/-- Result of `scrapePage`. -/
structure ScrapeOutcome where
  content : String
  status : Option Int
  headers : Option (List (String × String))
  contentType : Option String
deriving DecidableEq

/-- `Object.entries(headers).find(([key]) => key.toLowerCase() ===
"content-type")?.[1]` -/
def findContentType (headers : List (String × String)) : Option String :=
  (headers.find? fun kv => lowerStr kv.1 == "content-type").map Prod.snd

/-- `ct && (ct.toLowerCase().includes("application/json") ||
ct.toLowerCase().includes("text/plain"))` -/
def ctIsJsonOrPlain : Option String → Bool
  | none => false
  | some ct =>
      jsIncludes (lowerStr ct) "application/json" || jsIncludes (lowerStr ct) "text/plain"

/-- `scrapePage` (api.ts lines 205-237): navigate, optionally wait after
load, optionally require a selector (its absence becomes the fault
"Required selector not found"), then extract content — the rendered
HTML by default, the raw UTF-8 body when the response content-type is
JSON or plain text — together with status, headers and the sniffed
content type. -/
def scrapePage (page : PageEnv) (url : String) (waitUntil : WaitUntil)
    (waitAfterLoad timeout : Nat) (checkSelector : Option String) :
    Except Err ScrapeOutcome :=
  match page.goto with
  | .thrown e => .error e
  | g =>
    let response : Option Resp := match g with
      | .ok r => some r
      | _ => none
    match (if 0 < waitAfterLoad then page.waitForTimeout waitAfterLoad
           else .ok ()) with
    | .error e => .error e
    | .ok _ =>
      match (match checkSelector with
             | some sel =>
                 match page.waitForSelector sel timeout with
                 | .error _ =>
                     Except.error (Err.mk "Required selector not found")
                 | .ok _ => Except.ok ()
             | none => (Except.ok () : Except Err Unit)) with
      | .error e => .error e
      | .ok _ =>
        match page.content with
        | .error e => .error e
        | .ok htmlContent =>
          match response with
          | none =>
              .ok { content := htmlContent, status := none, headers := none,
                    contentType := none }
          | some r =>
              let ct := findContentType r.headers
              .ok { content := if ctIsJsonOrPlain ct then r.bodyUtf8 else htmlContent,
                    status := some r.status, headers := some r.headers,
                    contentType := ct }

/-! ## Error classification and the `/scrape` handler (api.ts lines 437-555) -/

/-- Modelled from the spec: the classifier `getError` is imported from
`./helpers/get_error`, a file that is not among the provided sources.
Per the spec, a non-200-or-null status maps through a small
status-to-classification table: a null status is a network/navigation
failure, 4xx a client-style page error, 5xx a server-style page error;
statuses outside the table get no classification. -/
def getError : Option Int → Option String
  | none => some "Request failed (network or navigation failure)"
  | some s =>
      if 400 ≤ s ∧ s ≤ 499 then some ("Client error: " ++ toString s)
      else if 500 ≤ s then some ("Server error: " ++ toString s)
      else none

/-- The JSON body built by `res.json(...)` on the success path (api.ts
lines 528-545).  Optional fields model the conditional spreads. -/
structure JsonResponse where
  content : String
  pageStatusCode : Option Int
  contentType : Option String
  screenshot : Option String
  actions : Option ActionResults
  pageError : Option String
deriving DecidableEq

/-- What the handler sends back: the success JSON, a 400 validation
rejection, or the generic 500 of the top-level `catch`. -/
inductive HandlerResult where
  | ok (r : JsonResponse)
  | badRequest (msg : String)
  | internalError
deriving DecidableEq

/-- Per-request resource accounting: how often the handler acquired and
released the admission permit and opened and closed the browsing
context and the page. -/
structure Trace where
  acquired : Nat
  released : Nat
  ctxOpened : Nat
  ctxClosed : Nat
  pageOpened : Nat
  pageClosed : Nat
deriving DecidableEq

def emptyTrace : Trace :=
  { acquired := 0, released := 0, ctxOpened := 0, ctxClosed := 0,
    pageOpened := 0, pageClosed := 0 }

/-- The trace of any exit path that ran the `finally` block: one
acquire, one release, and a close for exactly the resources that were
opened (`if (page) await page.close(); if (requestContext) await
requestContext.close();`). -/
def closedTrace (ctx page : Bool) : Trace :=
  { acquired := 1, released := 1,
    ctxOpened := if ctx then 1 else 0, ctxClosed := if ctx then 1 else 0,
    pageOpened := if page then 1 else 0, pageClosed := if page then 1 else 0 }

/-- The parsed request body (`UrlModel`), with the handler's defaults
(api.ts lines 437-448).  An absent or empty `url` is modelled by the
empty string (both are falsy for the `!url` check). -/
structure ScrapeRequest where
  url : String
  wait_after_load : Nat := 0
  timeout : Nat := 15000
  headers : Option (List (String × String)) := none
  check_selector : Option String := none
  skip_tls_verification : Bool := false
  actions : Option (List Action) := none
  screenshot : Bool := false
  full_page_screenshot : Bool := false

/-- The per-request environment: the page capability surface plus the
session-scoped operations (`createContext`, `newPage`,
`setExtraHTTPHeaders`), each of which may fault. -/
structure ScrapeEnv where
  page : PageEnv
  createContext : Except Err Unit
  newPage : Except Err Unit
  setExtraHTTPHeaders : Except Err Unit

/-- The result assembler (api.ts lines 506-545): unshift the top-level
screenshot ahead of action screenshots when both exist, wrap a
top-level screenshot in a fresh results object when no actions ran, and
include the `actions` block only when some sub-sequence is non-empty. -/
def assemble (result : ScrapeOutcome) (pageError : Option String)
    (screenshotData : Option String) (actionResults : Option ActionResults) :
    JsonResponse :=
  let ar1 : Option ActionResults :=
    match screenshotData, actionResults with
    | some s, some ar =>
        if 0 < ar.screenshots.length then
          some { ar with screenshots := s :: ar.screenshots }
        else some ar
    | _, _ => actionResults
  let ar2 : Option ActionResults :=
    match screenshotData, ar1 with
    | some s, none =>
        some { screenshots := [s], scrapes := [], javascriptReturns := [],
               pdfs := [] }
    | _, _ => ar1
  { content := result.content
    pageStatusCode := result.status
    contentType := result.contentType
    screenshot := screenshotData
    actions :=
      match ar2 with
      | some ar =>
          if 0 < ar.screenshots.length ∨ 0 < ar.scrapes.length ∨
              0 < ar.javascriptReturns.length ∨ 0 < ar.pdfs.length then
            some ar
          else none
      | none => none
    pageError := pageError }

/-- The admitted part of the `/scrape` handler (api.ts lines 478-554):
everything between `pageSemaphore.acquire()` and the `finally` block.
Each faulting stage lands in the top-level `catch` (a 500 response);
every path runs the `finally` block, closing exactly the opened
resources and releasing the permit. -/
def scrapeAttempt (env : ScrapeEnv) (fs : FS) (req : ScrapeRequest) :
    HandlerResult × FS × Trace :=
  match env.createContext with
  | .error _ => (.internalError, fs, closedTrace false false)
  | .ok _ =>
    match env.newPage with
    | .error _ => (.internalError, fs, closedTrace true false)
    | .ok _ =>
      match (match req.headers with
             | some _ => env.setExtraHTTPHeaders
             | none => Except.ok ()) with
      | .error _ => (.internalError, fs, closedTrace true true)
      | .ok _ =>
        match scrapePage env.page req.url .load req.wait_after_load req.timeout
            req.check_selector with
        | .error _ => (.internalError, fs, closedTrace true true)
        | .ok result =>
          let pageError : Option String :=
            if result.status = some 200 then none else getError result.status
          let ares : FS × Option ActionResults :=
            match req.actions with
            | some as =>
                if 0 < as.length then
                  ((executeActions env.page fs as).1,
                   some (executeActions env.page fs as).2)
                else (fs, none)
            | none => (fs, none)
          if req.screenshot || req.full_page_screenshot then
            match takeScreenshot env.page ares.1 req.full_page_screenshot with
            | .error _ => (.internalError, ares.1, closedTrace true true)
            | .ok (fs2, shotB64) =>
                (.ok (assemble result pageError (some shotB64) ares.2), fs2,
                 closedTrace true true)
          else
            (.ok (assemble result pageError none ares.2), ares.1,
             closedTrace true true)

/-- The `/scrape` handler (api.ts lines 437-555): validate the URL
before touching any browser resource, then run the admitted part. -/
def scrapeHandler (env : ScrapeEnv) (fs : FS) (req : ScrapeRequest) :
    HandlerResult × FS × Trace :=
  if req.url = "" then (.badRequest "URL is required", fs, emptyTrace)
  else if ¬ isValidUrl req.url then (.badRequest "Invalid URL", fs, emptyTrace)
  else scrapeAttempt env fs req

/-- Is this a `screenshot` action? -/
def isScreenshotAction : Action → Bool
  | .screenshot _ => true
  | _ => false

/-! ## Concrete environments and requests used to instantiate theorems -/

/-- A page on which every operation succeeds and navigation produces no
response object. -/
def happyPage : PageEnv :=
  { goto := .noResponse
    waitForTimeout := fun _ => .ok ()
    waitForSelector := fun _ _ => .ok ()
    clickOne := fun _ => .ok ()
    clickAll := fun _ => .ok ()
    keyboardType := fun _ => .ok ()
    keyboardPress := fun _ => .ok ()
    scrollPage := fun _ _ => .ok ()
    scrollElem := fun _ _ _ => .ok ()
    content := .ok "<html></html>"
    pageUrl := "https://example.com/"
    evaluate := fun _ => .ok (JsValue.number 7)
    screenshotBytes := fun _ => .ok [137, 80, 78, 71]
    pdfBytes := fun _ => .ok [37, 80, 68, 70]
    isoNow := fun _ => "2026-10-11T00:00:00.000Z" }

def fs0 : FS := { dirs := [], files := [], ticks := 0 }

/-- A page whose `click` faults (missing selector). -/
def clickFaultPage : PageEnv :=
  { happyPage with clickOne := fun _ => .error (Err.mk "selector not found") }

/-- A page whose screenshot capture faults. -/
def shotFaultPage : PageEnv :=
  { happyPage with screenshotBytes := fun _ => .error (Err.mk "screenshot failed") }

/-- A page whose navigation rejects, as `page.goto` does when the
navigation timeout is exceeded. -/
def navTimeoutPage : PageEnv :=
  { happyPage with goto := .thrown (Err.mk "page.goto: Timeout 15000ms exceeded.") }

/-- A page whose navigation yields a JSON response. -/
def jsonResp : Resp :=
  { status := 200
    headers := [("Content-Type", "application/json; charset=utf-8")]
    bodyUtf8 := "[1,2]" }

def jsonPage : PageEnv := { happyPage with goto := .ok jsonResp }

/-- Session environments wrapping the pages above, with the
session-scoped operations succeeding. -/
def happyEnv : ScrapeEnv :=
  { page := happyPage, createContext := .ok (), newPage := .ok (),
    setExtraHTTPHeaders := .ok () }

def shotFaultEnv : ScrapeEnv := { happyEnv with page := shotFaultPage }

def navTimeoutEnv : ScrapeEnv := { happyEnv with page := navTimeoutPage }

def req0 : ScrapeRequest := { url := "https://example.com/" }

/-- An action list whose first action faults on `clickFaultPage`. -/
def actsWithFault : List Action := [Action.click "#missing" none, Action.scrape]

/-- A request whose action list contains a capture action, with the
top-level screenshot flags off. -/
def reqActsShot : ScrapeRequest :=
  { url := "https://example.com/"
    actions := some [Action.screenshot none, Action.scrape] }

/-- A request asking for a top-level screenshot only. -/
def reqFlagShot : ScrapeRequest :=
  { url := "https://example.com/", screenshot := true }

/-- A request with a top-level screenshot and one screenshot action. -/
def reqFlagAndAction : ScrapeRequest :=
  { url := "https://example.com/"
    actions := some [Action.screenshot none]
    screenshot := true }

/-! # Theorems -/

theorem error_of_not_exIsOk {ε α : Type} (x : Except ε α)
    (h : (!exIsOk x) = true) : ∃ e, x = .error e := by
  cases x with
  | error e => exact ⟨e, rfl⟩
  | ok a => simp [exIsOk] at h

theorem runAction_error_of_faults (env : PageEnv) (a : Action) (fs : FS)
    (ha : actionFaults env a = true) :
    ∃ e, runAction env a fs = .error e := by
  cases a with
  | wait ms sel =>
      rcases ms with _ | m
      · rcases sel with _ | s
        · simp [actionFaults] at ha
        · obtain ⟨e, he⟩ :=
            error_of_not_exIsOk _ (by simpa [actionFaults] using ha)
          exact ⟨e, by simp [runAction, he]⟩
      · obtain ⟨e, he⟩ :=
          error_of_not_exIsOk _ (by simpa [actionFaults] using ha)
        exact ⟨e, by simp [runAction, he]⟩
  | click sel all =>
      cases hall : all.getD false with
      | true =>
          obtain ⟨e, he⟩ :=
            error_of_not_exIsOk _ (by simpa [actionFaults, hall] using ha)
          exact ⟨e, by simp [runAction, hall, he]⟩
      | false =>
          obtain ⟨e, he⟩ :=
            error_of_not_exIsOk _ (by simpa [actionFaults, hall] using ha)
          exact ⟨e, by simp [runAction, hall, he]⟩
  | screenshot fp =>
      obtain ⟨e, he⟩ :=
        error_of_not_exIsOk _ (by simpa [actionFaults] using ha)
      exact ⟨e, by simp [runAction, takeScreenshot, he]⟩
  | write t =>
      obtain ⟨e, he⟩ :=
        error_of_not_exIsOk _ (by simpa [actionFaults] using ha)
      exact ⟨e, by simp [runAction, he]⟩
  | press k =>
      obtain ⟨e, he⟩ :=
        error_of_not_exIsOk _ (by simpa [actionFaults] using ha)
      exact ⟨e, by simp [runAction, he]⟩
  | scroll dir sel =>
      rcases sel with _ | s
      · obtain ⟨e, he⟩ :=
          error_of_not_exIsOk _ (by simpa [actionFaults] using ha)
        exact ⟨e, by simp [runAction, he]⟩
      · obtain ⟨e, he⟩ :=
          error_of_not_exIsOk _ (by simpa [actionFaults] using ha)
        exact ⟨e, by simp [runAction, he]⟩
  | scrape =>
      obtain ⟨e, he⟩ :=
        error_of_not_exIsOk _ (by simpa [actionFaults] using ha)
      exact ⟨e, by simp [runAction, he]⟩
  | executeJavascript script =>
      obtain ⟨e, he⟩ :=
        error_of_not_exIsOk _ (by simpa [actionFaults] using ha)
      exact ⟨e, by simp [runAction, he]⟩
  | pdf l sc f =>
      obtain ⟨e, he⟩ :=
        error_of_not_exIsOk _ (by simpa [actionFaults] using ha)
      exact ⟨e, by simp [runAction, he]⟩
  | unknown tag => simp [actionFaults] at ha

theorem execStep_eq_of_faults (env : PageEnv) (a : Action)
    (ha : actionFaults env a = true) (s : FS × ActionResults) :
    execStep env s a = s := by
  obtain ⟨e, he⟩ := runAction_error_of_faults env a s.1 ha
  simp [execStep, he]

theorem foldl_eraseIdx {α β : Type} (g : β → α → β) :
    ∀ (as : List α) (k : Nat) (hk : k < as.length),
      (∀ b, g b (as.get ⟨k, hk⟩) = b) →
      ∀ (init : β), as.foldl g init = (as.eraseIdx k).foldl g init := by
  intro as
  induction as with
  | nil => intro k hk; simp at hk
  | cons a t ih =>
      intro k hk hfix init
      cases k with
      | zero =>
          have h0 : g init a = init := hfix init
          simp only [List.eraseIdx, List.foldl_cons, h0]
      | succ k =>
          simp only [List.eraseIdx, List.foldl_cons]
          exact ih k (by simpa using hk) (fun b => hfix b) (g init a)

/-- **C1** (error_handling): if executing action `k` raises a fault the
engine records the fault and still executes actions `k+1..n`, returning
the results accumulated from all non-failing actions — the whole run
equals the run with the faulting action removed — and an action with an
unrecognized variant tag is skipped without failing the batch. -/
theorem executeActions_isolates_faults (env : PageEnv) (fs : FS)
    (actions : List Action) (k : Nat) (hk : k < actions.length)
    (hf : actionFaults env (actions.get ⟨k, hk⟩) = true) :
    executeActions env fs actions = executeActions env fs (actions.eraseIdx k) ∧
    ∀ (tag : String) (pre post : List Action),
      executeActions env fs (pre ++ Action.unknown tag :: post) =
        executeActions env fs (pre ++ post) := by
  constructor
  · exact foldl_eraseIdx (execStep env) actions k hk
      (fun b => execStep_eq_of_faults env _ hf b) (fs, emptyResults)
  · intro tag pre post
    unfold executeActions
    rw [List.foldl_append, List.foldl_append, List.foldl_cons]
    rfl

/-- Witness for C1 at a concrete faulting click followed by a scrape. -/
theorem executeActions_isolates_faults_witness :
    executeActions clickFaultPage fs0 actsWithFault =
      executeActions clickFaultPage fs0 (actsWithFault.eraseIdx 0) :=
  (executeActions_isolates_faults clickFaultPage fs0 actsWithFault 0
    (by decide) (by decide)).1

theorem scrapeAttempt_trace_shape (env : ScrapeEnv) (fs : FS)
    (req : ScrapeRequest) :
    ∃ ctx page, (scrapeAttempt env fs req).2.2 = closedTrace ctx page := by
  unfold scrapeAttempt
  repeat' split
  all_goals dsimp only
  repeat' split
  all_goals exact ⟨_, _, rfl⟩

/-- **C2** (invariants): on every exit path of the admitted part of the
render operation the permit is acquired and released exactly once, and
the page and the browsing context are closed exactly as often as they
were opened (each at most once); summing over any batch of completed
requests, permits acquired equal permits released and contexts opened
equal contexts closed, so the outstanding-permit count equals the
number of open sessions. -/
theorem scrapeAttempt_resource_discipline (env : ScrapeEnv) (fs : FS)
    (req : ScrapeRequest) :
    ((scrapeAttempt env fs req).2.2.acquired = 1 ∧
     (scrapeAttempt env fs req).2.2.released = 1 ∧
     (scrapeAttempt env fs req).2.2.pageClosed =
       (scrapeAttempt env fs req).2.2.pageOpened ∧
     (scrapeAttempt env fs req).2.2.ctxClosed =
       (scrapeAttempt env fs req).2.2.ctxOpened ∧
     (scrapeAttempt env fs req).2.2.pageOpened ≤ 1 ∧
     (scrapeAttempt env fs req).2.2.ctxOpened ≤ 1) ∧
    ∀ (batch : List (ScrapeEnv × FS × ScrapeRequest)),
      (batch.map fun q => (scrapeAttempt q.1 q.2.1 q.2.2).2.2.acquired).sum =
        (batch.map fun q => (scrapeAttempt q.1 q.2.1 q.2.2).2.2.released).sum ∧
      (batch.map fun q => (scrapeAttempt q.1 q.2.1 q.2.2).2.2.ctxOpened).sum =
        (batch.map fun q => (scrapeAttempt q.1 q.2.1 q.2.2).2.2.ctxClosed).sum := by
  constructor
  · obtain ⟨c, p, h⟩ := scrapeAttempt_trace_shape env fs req
    rw [h]
    cases c <;> cases p <;> simp [closedTrace]
  · intro batch
    induction batch with
    | nil => simp
    | cons q t ih =>
        obtain ⟨c, p, h⟩ := scrapeAttempt_trace_shape q.1 q.2.1 q.2.2
        simp only [List.map_cons, List.sum_cons, h]
        cases c <;> cases p <;> simp [closedTrace] <;> omega

theorem acquireList_fresh (cs : List Nat) : ∀ N : Nat, cs.length ≤ N →
    acquireList { permits := N, queue := [] } cs =
      ({ permits := N - cs.length, queue := [] },
       List.replicate cs.length true) := by
  induction cs with
  | nil => intro N _; simp [acquireList]
  | cons c t ih =>
      intro N h
      have hN : 0 < N := by simp at h; omega
      have h2 : t.length ≤ N - 1 := by simp at h; omega
      simp only [acquireList]
      rw [show Sem.acquire { permits := N, queue := [] } c =
            ({ permits := N - 1, queue := [] }, true) from by
          simp [Sem.acquire, hN]]
      rw [ih (N - 1) h2]
      simp only [List.length_cons, List.replicate_succ]
      rw [show N - 1 - t.length = N - (t.length + 1) from by omega]

/-- **C3** (functional_correctness): with capacity `N`, every batch of
`M ≤ N` callers is admitted immediately and leaves the wait queue
empty; when the semaphore is exhausted the next caller is suspended at
the back of the queue; and `release` hands the freed permit to the
front — the longest-waiting — queued caller, never to a later arrival,
while new blocked arrivals always append behind existing waiters. -/
theorem semaphore_fifo (N : Nat) (cs : List Nat) (caller : Nat)
    (h : cs.length ≤ N) :
    (∀ b ∈ (acquireList { permits := N, queue := [] } cs).2, b = true) ∧
    (acquireList { permits := N, queue := [] } cs).1 =
      { permits := N - cs.length, queue := [] } ∧
    (cs.length = N →
      ((acquireList { permits := N, queue := [] } cs).1.acquire caller).2 =
        false ∧
      ((acquireList { permits := N, queue := [] } cs).1.acquire
        caller).1.queue = [caller]) ∧
    (∀ (s : Sem) (w : Nat) (ws : List Nat), s.queue = w :: ws →
      s.release = ({ permits := s.permits, queue := ws }, some w)) ∧
    (∀ (s : Sem) (c : Nat), s.permits = 0 →
      (s.acquire c).2 = false ∧ (s.acquire c).1.queue = s.queue ++ [c]) := by
  have hfresh := acquireList_fresh cs N h
  refine ⟨?_, ?_, ?_, ?_, ?_⟩
  · rw [hfresh]
    intro b hb
    exact List.eq_of_mem_replicate hb
  · rw [hfresh]
  · intro hfull
    rw [hfresh]
    have h0 : N - cs.length = 0 := by omega
    rw [h0]
    simp [Sem.acquire]
  · intro s w ws hq
    simp [Sem.release, hq]
  · intro s c hp
    simp [Sem.acquire, hp]

/-- Witness for C3: capacity 2, two immediate admissions, a suspended
third caller, and a FIFO hand-off. -/
theorem semaphore_fifo_witness :
    (∀ b ∈ (acquireList { permits := 2, queue := [] } [5, 7]).2, b = true) ∧
    (acquireList { permits := 2, queue := [] } [5, 7]).1 =
      { permits := 2 - ([5, 7] : List Nat).length, queue := [] } ∧
    (([5, 7] : List Nat).length = 2 →
      ((acquireList { permits := 2, queue := [] } [5, 7]).1.acquire 9).2 =
        false ∧
      ((acquireList { permits := 2, queue := [] } [5, 7]).1.acquire
        9).1.queue = [9]) ∧
    (∀ (s : Sem) (w : Nat) (ws : List Nat), s.queue = w :: ws →
      s.release = ({ permits := s.permits, queue := ws }, some w)) ∧
    (∀ (s : Sem) (c : Nat), s.permits = 0 →
      (s.acquire c).2 = false ∧ (s.acquire c).1.queue = s.queue ++ [c]) :=
  semaphore_fifo 2 [5, 7] 9 (by decide)

/-- **C4** counterexample: a request whose navigation rejects — as
`page.goto` does when the configured timeout is exceeded — does not get
a structured success Response with a null status and a page error; it
lands in the handler's top-level `catch` and becomes the generic 500
transport-level error. -/
theorem scrapeHandler_timeout_counterexample :
    (scrapeHandler navTimeoutEnv fs0 req0).1 = HandlerResult.internalError := by
  decide

/-- **C4** (amended, error_handling): a navigation that completes but
produces no response object yields a structured Response with a null
status code and a populated page-error classification; a navigation
fault that rejects the `goto` promise — which is how Playwright
surfaces a navigation timeout — yields the generic internal-error (500)
transport response instead, not an unhandled fault. -/
theorem scrapeHandler_navigation_outcomes (env : ScrapeEnv) (fs : FS)
    (req : ScrapeRequest) (html : String)
    (hurl : ¬ req.url = "") (hvalid : isValidUrl req.url = true)
    (hcc : env.createContext = Except.ok ()) (hnp : env.newPage = Except.ok ())
    (hh : req.headers = none) (hw : req.wait_after_load = 0)
    (hsel : req.check_selector = none) (hact : req.actions = none)
    (hs1 : req.screenshot = false) (hs2 : req.full_page_screenshot = false)
    (hct : env.page.content = Except.ok html) :
    (env.page.goto = GotoOutcome.noResponse →
      (scrapeHandler env fs req).1 =
        HandlerResult.ok
          { content := html, pageStatusCode := none, contentType := none,
            screenshot := none, actions := none, pageError := getError none } ∧
      (getError none).isSome = true) ∧
    (∀ e, env.page.goto = GotoOutcome.thrown e →
      (scrapeHandler env fs req).1 = HandlerResult.internalError) := by
  have hhandler : scrapeHandler env fs req = scrapeAttempt env fs req := by
    unfold scrapeHandler
    rw [if_neg hurl, if_neg (by simp [hvalid])]
  constructor
  · intro hg
    refine ⟨?_, rfl⟩
    rw [hhandler]
    simp [scrapeAttempt, scrapePage, hcc, hnp, hh, hact, hs1, hs2,
      hg, hw, hsel, hct]
    rfl
  · intro e hg
    rw [hhandler]
    simp [scrapeAttempt, scrapePage, hcc, hnp, hh, hg]

/-- Witness for the amended C4 on a concrete no-response navigation. -/
theorem scrapeHandler_navigation_outcomes_witness :
    (scrapeHandler happyEnv fs0 req0).1 =
      HandlerResult.ok
        { content := "<html></html>", pageStatusCode := none,
          contentType := none, screenshot := none, actions := none,
          pageError := getError none } ∧
    (getError none).isSome = true :=
  (scrapeHandler_navigation_outcomes happyEnv fs0 req0 "<html></html>"
    (by decide) (by decide) rfl rfl rfl rfl rfl rfl rfl rfl rfl).1 rfl

/-- **C5** counterexample: the network policy filter is not total — a
request URL the URL constructor rejects makes the route handler throw
(`new URL` raises a `TypeError`) instead of the request being treated
as non-matching and allowed to continue. -/
theorem routeFilter_malformed_counterexample :
    routeFilter "not a url" = Except.error (Err.mk "Invalid URL") := by
  decide

/-- **C5** (amended, safety): for every intercepted request whose URL
the URL constructor accepts, the filter returns an allow-or-abort
decision and never faults: abort exactly when the hostname contains a
deny-list entry as a substring, continue otherwise.  A request whose
URL cannot be parsed makes the filter itself fault rather than being
allowed. -/
theorem routeFilter_total_on_parseable (s : String) (u : UrlParts)
    (h : parseUrl s = some u) :
    routeFilter s =
      Except.ok
        (if adServingDomains.any (fun domain => jsIncludes u.hostname domain)
         then RouteDecision.abort else RouteDecision.cont) := by
  unfold routeFilter
  rw [h]
  dsimp only
  split <;> rfl

/-- Witness for the amended C5 at a deny-listed hostname. -/
theorem routeFilter_total_on_parseable_witness :
    routeFilter "https://doubleclick.net/ad" =
      Except.ok
        (if adServingDomains.any
            (fun domain =>
              jsIncludes (UrlParts.mk "https" "doubleclick.net").hostname domain)
         then RouteDecision.abort else RouteDecision.cont) :=
  routeFilter_total_on_parseable "https://doubleclick.net/ad"
    (UrlParts.mk "https" "doubleclick.net") (by decide)

/-- **C6** counterexample: a screenshot capture fault raised by a
`screenshot` action in the action list does not become a hard failure
of the render operation — the handler still returns a success response,
and the action after the faulting capture still runs. -/
theorem action_capture_fault_counterexample :
    (scrapeHandler shotFaultEnv fs0 reqActsShot).1 ≠
      HandlerResult.internalError ∧
    (executeActions shotFaultPage fs0
      [Action.screenshot none, Action.scrape]).2.scrapes.length = 1 := by
  decide

/-- **C6** (amended, error_handling): only a capture fault of the
top-level screenshot flags propagates as a hard failure (the generic
500) of the render operation; a screenshot or pdf capture fault inside
the action list is isolated by the per-action catch like any other
action fault, and the render operation still returns a success
response. -/
theorem capture_fault_asymmetry (env : ScrapeEnv) (fs : FS)
    (req req2 : ScrapeRequest) (result : ScrapeOutcome) (e : Err)
    (hcc : env.createContext = Except.ok ()) (hnp : env.newPage = Except.ok ())
    (hh : req.headers = none) (hh2 : req2.headers = none)
    (hsp : scrapePage env.page req.url .load req.wait_after_load req.timeout
      req.check_selector = Except.ok result)
    (hsp2 : ∃ result2, scrapePage env.page req2.url .load req2.wait_after_load
      req2.timeout req2.check_selector = Except.ok result2)
    (hflag : req.screenshot = true)
    (hshot : env.page.screenshotBytes req.full_page_screenshot =
      Except.error e)
    (hs1 : req2.screenshot = false) (hs2 : req2.full_page_screenshot = false) :
    (scrapeAttempt env fs req).1 = HandlerResult.internalError ∧
    ∃ jr, (scrapeAttempt env fs req2).1 = HandlerResult.ok jr := by
  constructor
  · simp [scrapeAttempt, takeScreenshot, hcc, hnp, hh, hsp, hflag, hshot]
  · obtain ⟨r2, hr2⟩ := hsp2
    simp [scrapeAttempt, hcc, hnp, hh2, hr2, hs1, hs2]

/-- Witness for the amended C6: a faulting capture as top-level flag is
a hard failure, the same faulting capture inside the action list is
not. -/
theorem capture_fault_asymmetry_witness :
    (scrapeAttempt shotFaultEnv fs0 reqFlagShot).1 =
      HandlerResult.internalError ∧
    ∃ jr, (scrapeAttempt shotFaultEnv fs0 reqActsShot).1 =
      HandlerResult.ok jr :=
  capture_fault_asymmetry shotFaultEnv fs0 reqFlagShot reqActsShot
    { content := "<html></html>", status := none, headers := none,
      contentType := none }
    (Err.mk "screenshot failed") rfl rfl rfl rfl (by decide)
    ⟨{ content := "<html></html>", status := none, headers := none,
       contentType := none }, by decide⟩
    rfl rfl rfl rfl

/-- **C7** (functional_correctness): when navigation produces a
response, the returned content is the rendered page HTML unless the
response content-type contains `application/json` or `text/plain`
case-insensitively, in which case it is the raw UTF-8 response body;
the outcome carries the response status, headers and sniffed content
type, and the status is null when navigation produced no response. -/
theorem scrapePage_content_sniffing (page : PageEnv) (url : String)
    (timeout : Nat) (r : Resp) (html : String)
    (hg : page.goto = GotoOutcome.ok r)
    (hct : page.content = Except.ok html) :
    scrapePage page url .load 0 timeout none =
      Except.ok
        { content := if ctIsJsonOrPlain (findContentType r.headers)
            then r.bodyUtf8 else html,
          status := some r.status, headers := some r.headers,
          contentType := findContentType r.headers } ∧
    ∀ (page2 : PageEnv) (html2 : String),
      page2.goto = GotoOutcome.noResponse →
      page2.content = Except.ok html2 →
      scrapePage page2 url .load 0 timeout none =
        Except.ok { content := html2, status := none, headers := none,
                    contentType := none } := by
  constructor
  · simp [scrapePage, hg, hct]
  · intro page2 html2 hg2 hct2
    simp [scrapePage, hg2, hct2]

/-- Witness for C7: a JSON response returns the raw body, status 200,
and the sniffed content type. -/
theorem scrapePage_content_sniffing_witness :
    scrapePage jsonPage "https://example.com/" .load 0 15000 none =
      Except.ok
        { content := "[1,2]", status := some 200,
          headers := some [("Content-Type", "application/json; charset=utf-8")],
          contentType := some "application/json; charset=utf-8" } :=
  (scrapePage_content_sniffing jsonPage "https://example.com/" 15000 jsonResp
    "<html></html>" rfl rfl).1

theorem execStep_screenshots_length (env : PageEnv)
    (hshot : ∀ b, exIsOk (env.screenshotBytes b) = true)
    (s : FS × ActionResults) (a : Action) :
    (execStep env s a).2.screenshots.length =
      s.2.screenshots.length + (if isScreenshotAction a then 1 else 0) := by
  cases a with
  | wait ms sel =>
      rcases ms with _ | m
      · rcases sel with _ | sel
        · simp [execStep, runAction, isScreenshotAction]
        · rcases hcall : env.waitForSelector sel 30000 with e | u <;>
            simp [execStep, runAction, hcall, isScreenshotAction]
      · rcases hcall : env.waitForTimeout m with e | u <;>
          simp [execStep, runAction, hcall, isScreenshotAction]
  | click sel all =>
      cases hall : all.getD false with
      | false =>
          rcases hcall : env.clickOne sel with e | u <;>
            simp [execStep, runAction, hall, hcall, isScreenshotAction]
      | true =>
          rcases hcall : env.clickAll sel with e | u <;>
            simp [execStep, runAction, hall, hcall, isScreenshotAction]
  | screenshot fp =>
      have h := hshot (fp.getD false)
      rcases hb : env.screenshotBytes (fp.getD false) with e | bytes
      · rw [hb] at h
        simp [exIsOk] at h
      · simp [execStep, runAction, takeScreenshot, hb, isScreenshotAction]
  | write t =>
      rcases hcall : env.keyboardType t with e | u <;>
        simp [execStep, runAction, hcall, isScreenshotAction]
  | press k =>
      rcases hcall : env.keyboardPress k with e | u <;>
        simp [execStep, runAction, hcall, isScreenshotAction]
  | scroll dir sel =>
      rcases sel with _ | sel
      · rcases hcall : env.scrollPage (dir.getD .down) 500 with e | u <;>
          simp [execStep, runAction, hcall, isScreenshotAction]
      · rcases hcall : env.scrollElem sel (dir.getD .down) 500 with e | u <;>
          simp [execStep, runAction, hcall, isScreenshotAction]
  | scrape =>
      rcases hcall : env.content with e | u <;>
        simp [execStep, runAction, hcall, isScreenshotAction]
  | executeJavascript script =>
      rcases hcall : env.evaluate script with e | u <;>
        simp [execStep, runAction, hcall, isScreenshotAction]
  | pdf l sc f =>
      rcases hcall : env.pdfBytes (buildPdfOptions l sc f) with e | u <;>
        simp [execStep, runAction, hcall, isScreenshotAction]
  | unknown tag => simp [execStep, runAction, isScreenshotAction]

theorem executeActions_screenshots_count (env : PageEnv)
    (hshot : ∀ b, exIsOk (env.screenshotBytes b) = true) :
    ∀ (as : List Action) (s : FS × ActionResults),
      ((as.foldl (execStep env) s).2.screenshots).length =
        s.2.screenshots.length + (as.filter isScreenshotAction).length := by
  intro as
  induction as with
  | nil => intro s; simp
  | cons a t ih =>
      intro s
      rw [List.foldl_cons, ih (execStep env s a),
        execStep_screenshots_length env hshot s a]
      cases hsa : isScreenshotAction a <;>
        simp [List.filter_cons, hsa] <;> omega

theorem assemble_unshift (result : ScrapeOutcome) (pe : Option String)
    (s : String) (ar : ActionResults) (hpos : 0 < ar.screenshots.length) :
    assemble result pe (some s) (some ar) =
      { content := result.content, pageStatusCode := result.status,
        contentType := result.contentType, screenshot := some s,
        actions := some { ar with screenshots := s :: ar.screenshots },
        pageError := pe } := by
  unfold assemble
  dsimp only
  rw [if_pos hpos]
  dsimp only
  rw [if_pos (by simp)]

/-- **C8** (functional_correctness): with the top-level screenshot flag
set and an action list containing at least one `screenshot` action
(whose captures succeed), the response's `actions.screenshots` sequence
is the top-level screenshot followed by the action-produced screenshots
in execution order, so its length is one more than the number of
`screenshot` actions. -/
theorem topLevel_screenshot_first (env : ScrapeEnv) (fs : FS)
    (req : ScrapeRequest) (as : List Action) (sb : Bool → List Nat)
    (result : ScrapeOutcome)
    (hcc : env.createContext = Except.ok ()) (hnp : env.newPage = Except.ok ())
    (hh : req.headers = none)
    (hsp : scrapePage env.page req.url .load req.wait_after_load req.timeout
      req.check_selector = Except.ok result)
    (hact : req.actions = some as)
    (hflag : req.screenshot = true)
    (hshot : ∀ b, env.page.screenshotBytes b = Except.ok (sb b))
    (hcount : 0 < (as.filter isScreenshotAction).length) :
    ∃ jr ab, (scrapeAttempt env fs req).1 = HandlerResult.ok jr ∧
      jr.actions = some ab ∧
      ab.screenshots =
        base64Encode (sb req.full_page_screenshot) ::
          (executeActions env.page fs as).2.screenshots ∧
      ab.screenshots.length = 1 + (as.filter isScreenshotAction).length := by
  have hshots_ok : ∀ b, exIsOk (env.page.screenshotBytes b) = true := by
    intro b
    rw [hshot b]
    rfl
  have hcnt := executeActions_screenshots_count env.page hshots_ok as
    (fs, emptyResults)
  have hlen : 0 < as.length := by
    rcases as with _ | ⟨a, t⟩
    · simp at hcount
    · simp
  have hpos : 0 < (executeActions env.page fs as).2.screenshots.length := by
    unfold executeActions
    rw [hcnt]
    simpa [emptyResults] using hcount
  simp only [scrapeAttempt, hcc, hnp, hh, hsp, hact, hflag, hlen, if_true,
    Bool.true_or, takeScreenshot, hshot]
  rw [assemble_unshift _ _ _ _ hpos]
  refine ⟨_, _, rfl, rfl, rfl, ?_⟩
  simp only [List.length_cons]
  unfold executeActions at hcnt ⊢
  rw [hcnt]
  simp [emptyResults]
  omega

/-- Witness for C8: one top-level screenshot plus one screenshot action
yields a screenshots sequence of length 2 with the top-level capture
first. -/
theorem topLevel_screenshot_first_witness :
    ∃ jr ab, (scrapeAttempt happyEnv fs0 reqFlagAndAction).1 =
        HandlerResult.ok jr ∧
      jr.actions = some ab ∧
      ab.screenshots =
        base64Encode [137, 80, 78, 71] ::
          (executeActions happyPage fs0 [Action.screenshot none]).2.screenshots ∧
      ab.screenshots.length =
        1 + (([Action.screenshot none] : List Action).filter
          isScreenshotAction).length :=
  topLevel_screenshot_first happyEnv fs0 reqFlagAndAction
    [Action.screenshot none] (fun _ => [137, 80, 78, 71])
    { content := "<html></html>", status := none, headers := none,
      contentType := none }
    rfl rfl rfl (by decide) rfl rfl (fun _ => rfl) (by decide)

/-- **C9** (functional_correctness): the options passed to the PDF
renderer use format "Letter" exactly when the `pdf` action specifies no
format and the action's own format otherwise, while landscape and scale
are included exactly when the action provides them and are never given
a default value when absent. -/
theorem buildPdfOptions_spec (landscape : Option Bool) (scale : Option Rat)
    (format : Option String) :
    buildPdfOptions landscape scale format =
      { landscape := landscape, scale := scale,
        format := some (format.getD "Letter") } := by
  cases landscape <;> cases scale <;> cases format <;> rfl

theorem b64Value_b64Char : ∀ n, n < 64 → b64Value (b64Char n) = n := by
  decide

theorem b64Char_ne_pad : ∀ n, n < 64 → ¬ b64Char n = '=' := by
  decide

theorem base64_roundtrip : ∀ (l : List Nat), (∀ x ∈ l, x < 256) →
    base64DecodeChars (base64EncodeChars l) = l := by
  intro l
  induction l using base64EncodeChars.induct with
  | case1 => intro _; rfl
  | case2 a =>
      intro h
      have ha : a < 256 := h a (by simp)
      have h1 : a / 4 < 64 := by omega
      have h2 : a % 4 * 16 < 64 := by omega
      simp only [base64EncodeChars, base64DecodeChars]
      rw [b64Value_b64Char _ h1, b64Value_b64Char _ h2]
      simp [List.cons.injEq]
      omega
  | case3 a b =>
      intro h
      have ha : a < 256 := h a (by simp)
      have hb : b < 256 := h b (by simp)
      have h1 : a / 4 < 64 := by omega
      have h2 : a % 4 * 16 + b / 16 < 64 := by omega
      have h3 : b % 16 * 4 < 64 := by omega
      simp only [base64EncodeChars, base64DecodeChars]
      rw [if_neg (b64Char_ne_pad _ h3), if_pos trivial]
      rw [b64Value_b64Char _ h1, b64Value_b64Char _ h2, b64Value_b64Char _ h3]
      simp [List.cons.injEq]
      omega
  | case4 a b c rest ih =>
      intro h
      have ha : a < 256 := h a (by simp)
      have hb : b < 256 := h b (by simp)
      have hc : c < 256 := h c (by simp)
      have hrest : ∀ x ∈ rest, x < 256 := fun x hx => h x (by simp [hx])
      have h1 : a / 4 < 64 := by omega
      have h2 : a % 4 * 16 + b / 16 < 64 := by omega
      have h3 : b % 16 * 4 + c / 64 < 64 := by omega
      have h4 : c % 64 < 64 := by omega
      simp only [base64EncodeChars, base64DecodeChars]
      rw [if_neg (b64Char_ne_pad _ h3), if_neg (b64Char_ne_pad _ h4)]
      rw [b64Value_b64Char _ h1, b64Value_b64Char _ h2,
        b64Value_b64Char _ h3, b64Value_b64Char _ h4]
      rw [ih hrest]
      simp [List.cons.injEq]
      omega

/-- **C10** (frame_effect): every screenshot capture writes the PNG
bytes to a timestamped file in the screenshots directory — creating the
directory when absent — and returns a base64 string that encodes
exactly the bytes written to that file (decoding the returned string
recovers the file's bytes).  Both the `screenshot` action case and the
top-level screenshot flags call this same `takeScreenshot`. -/
theorem takeScreenshot_writes_file (env : PageEnv) (fs : FS)
    (fullPage : Bool) (shot : List Nat)
    (hshot : env.screenshotBytes fullPage = Except.ok shot)
    (hbytes : ∀ x ∈ shot, x < 256) :
    takeScreenshot env fs fullPage =
      Except.ok (writeShotFile env fs shot, base64Encode shot) ∧
    screenshotsDir ∈ (writeShotFile env fs shot).dirs ∧
    (screenshotFilePath (env.isoNow fs.ticks), shot) ∈
      (writeShotFile env fs shot).files ∧
    base64Decode (base64Encode shot) = shot := by
  refine ⟨?_, ?_, ?_, ?_⟩
  · simp [takeScreenshot, hshot]
  · unfold writeShotFile
    by_cases hd : fs.dirs.contains screenshotsDir
    · dsimp only
      rw [if_pos hd]
      simpa using hd
    · dsimp only
      rw [if_neg hd]
      simp
  · unfold writeShotFile
    by_cases hd : fs.dirs.contains screenshotsDir
    · dsimp only
      rw [if_pos hd]
      simp
    · dsimp only
      rw [if_neg hd]
      simp
  · unfold base64Decode base64Encode
    exact base64_roundtrip shot hbytes

/-- Witness for C10 on a concrete four-byte capture. -/
theorem takeScreenshot_writes_file_witness :
    takeScreenshot happyPage fs0 false =
      Except.ok (writeShotFile happyPage fs0 [137, 80, 78, 71],
        base64Encode [137, 80, 78, 71]) ∧
    screenshotsDir ∈ (writeShotFile happyPage fs0 [137, 80, 78, 71]).dirs ∧
    (screenshotFilePath (happyPage.isoNow fs0.ticks), [137, 80, 78, 71]) ∈
      (writeShotFile happyPage fs0 [137, 80, 78, 71]).files ∧
    base64Decode (base64Encode [137, 80, 78, 71]) = [137, 80, 78, 71] :=
  takeScreenshot_writes_file happyPage fs0 false [137, 80, 78, 71] rfl
    (by decide)

end Firecrawl
